import Mathlib

/-!
Shallow embedding of the notification relay core of the `acceso-feria`
repository: the connection registry and delivery engine
(`NotificationService`), the WebSocket gateway (`NotificationGateway`)
and the webhook ingress controller (`WebhookController`).

The registry (`Map<string, ConnectedClient>` keyed by socket id and
preserving insertion order) is modelled as a list of `ConnectedClient`
records in registration order, with socket ids unique as an invariant of
the `Map` key.  Wall-clock times are modelled as natural numbers;
`Date.toISOString` is modelled as an injective wrapper of the instant it
formats.  The injected emit callback may throw (modelled as returning
`false`) and may mutate the registry through its closure (modelled by
threading the registry through it), which is exactly what the gateway's
`emitToSocket` does when it evicts a dead socket.
-/

/-- `ConnectedClient` interface from `notification.interface.ts`. -/
structure ConnectedClient where
  socketId : String
  userId : String
  connectedAt : Nat
deriving Repr, DecidableEq

/-- The `connectedClients : Map<string, ConnectedClient>` registry of
`NotificationService`, in insertion order. -/
abbrev Registry := List ConnectedClient

/-- Opaque producer-supplied `data` payload (`Record<string, any>`): the core
never inspects its contents, so any concrete carrier with decidable equality
is faithful. -/
abbrev NotifData := List (String × String)

/-- Result of `Date.prototype.toISOString` on a `Date`: an ISO-8601 rendering
of the instant, modelled as an injective wrapper of the instant itself. -/
structure ISOTimestamp where
  instant : Nat
deriving Repr, DecidableEq

/-- `Date.prototype.toISOString`: deterministic, injective formatting of a
creation instant. -/
def toISOString (t : Nat) : ISOTimestamp := ⟨t⟩

/-- `BaseNotification` interface from `notification.interface.ts`.
`priority` and `source` are `String` because the values originate from
runtime JSON, which TypeScript's union types do not constrain at runtime. -/
structure BaseNotification where
  id : String
  type : String
  message : String
  data : Option NotifData
  priority : String
  timestamp : Nat
  source : String
deriving Repr, DecidableEq

/-- `WebhookNotificationDto` from `webhook-notification.dto.ts`: the parsed
request body.  `none` models an absent (or `null`) optional field; a present
`priority` may at runtime hold any string. -/
structure WebhookNotificationDto where
  type : String
  message : String
  targetUsers : Option (List String)
  data : Option NotifData
  priority : Option String
deriving Repr, DecidableEq

/-- `WebSocketNotificationDto` from `websocket-notification.dto.ts`: the wire
format handed to the send primitive; exactly the fields
`id, type, message, data?, priority, timestamp, source`. -/
structure WebSocketNotificationDto where
  id : String
  type : String
  message : String
  data : Option NotifData
  priority : String
  timestamp : ISOTimestamp
  source : String
deriving Repr, DecidableEq

/-- JavaScript truthiness of an optional string: `undefined`/`null` and the
empty string are falsy. -/
def jsTruthy : Option String → Bool
  | none => false
  | some s => s ≠ ""

/-- JavaScript `a || b` for an optional string `a` against a default. -/
def jsOrDefault (a : Option String) (b : String) : String :=
  match a with
  | none => b
  | some s => if s = "" then b else s

namespace NotificationService

/-- `addClient(userId, socketId)`: `Map.set` keyed by socket id — replaces in
place if the key exists (keeping its insertion position), appends otherwise. -/
def addClient (reg : Registry) (userId socketId : String) (now : Nat) : Registry :=
  if reg.any (fun c => c.socketId = socketId) then
    reg.map (fun c => if c.socketId = socketId then ⟨socketId, userId, now⟩ else c)
  else
    reg ++ [⟨socketId, userId, now⟩]

/-- `removeClient(socketId)`: `Map.delete` of the socket-id key; a no-op when
absent. -/
def removeClient (reg : Registry) (socketId : String) : Registry :=
  reg.filter (fun c => c.socketId ≠ socketId)

/-- `getConnectedClients()`: all registered clients in insertion order. -/
def getConnectedClients (reg : Registry) : List ConnectedClient := reg

/-- `getConnectedUsers()`: user ids with duplicates removed
(`[...new Set(userIds)]` keeps first occurrences in order). -/
def getConnectedUsers (reg : Registry) : List String :=
  (reg.map (fun c => c.userId)).eraseDups

/-- `getClientsByUserId(userId)`: clients filtered by user id, in insertion
order. -/
def getClientsByUserId (reg : Registry) (userId : String) : List ConnectedClient :=
  reg.filter (fun c => c.userId = userId)

/-- `isUserConnected(userId)`: the user has at least one live connection. -/
def isUserConnected (reg : Registry) (userId : String) : Bool :=
  (getClientsByUserId reg userId).length > 0

/-- `getConnectedClientsCount()`: `Map.size`. -/
def getConnectedClientsCount (reg : Registry) : Nat := reg.length

/-- `processWebhookNotification(webhookNotification)`.  `uuid` models the
fresh `uuidv4()` and `now` the `new Date()` taken at normalization time. -/
def processWebhookNotification (uuid : String) (now : Nat)
    (w : WebhookNotificationDto) : BaseNotification :=
  { id := uuid
    type := w.type
    message := w.message
    data := w.data
    priority := jsOrDefault w.priority "normal"
    timestamp := now
    source := "webhook" }

/-- `transformToWebSocketDto(notification)`. -/
def transformToWebSocketDto (n : BaseNotification) : WebSocketNotificationDto :=
  { id := n.id
    type := n.type
    message := n.message
    data := n.data
    priority := n.priority
    timestamp := toISOString n.timestamp
    source := n.source }

/-- The injected `emitFunction`: called with a socket id and the wire dto, it
may mutate the registry through its closure (the gateway's callback does) and
either returns normally (`true`) or throws (`false`, caught by the caller). -/
abbrev Emit := String → WebSocketNotificationDto → Registry → Registry × Bool

/-- State threaded through one delivery attempt: the live registry, the trace
of send-primitive invocations made so far, and `successfulSocketIds`. -/
structure SendState where
  reg : Registry
  calls : List (String × WebSocketNotificationDto)
  delivered : List String
deriving Repr, DecidableEq

/-- One guarded invocation of the emit callback
(`try { emitFunction(socketId, dto); successfulSocketIds.push(socketId) }
catch { ... }`): the call is recorded in the trace, the registry is whatever
the callback left behind, and the socket id is recorded as delivered exactly
when the callback did not throw. -/
def attemptSend (emit : Emit) (dto : WebSocketNotificationDto)
    (st : SendState) (socketId : String) : SendState :=
  let r := emit socketId dto st.reg
  { reg := r.1
    calls := st.calls ++ [(socketId, dto)]
    delivered := if r.2 then st.delivered ++ [socketId] else st.delivered }

/-- `broadcastNotification(notification, emitFunction)`: snapshot of all
socket ids taken at call time, one wire dto computed once, then one guarded
emit per snapshot entry in order. -/
def broadcastNotification (reg : Registry) (n : BaseNotification)
    (emit : Emit) : SendState :=
  let allSocketIds := reg.map (fun c => c.socketId)
  let websocketNotification := transformToWebSocketDto n
  allSocketIds.foldl (attemptSend emit websocketNotification) ⟨reg, [], []⟩

/-- `sendToUsers(notification, userIds, emitFunction)`: for each requested
user id in input order, resolve that user's clients from the registry as it
stands at that moment, then one guarded emit per client.  There is no check
for an empty `userIds` and no deduplication. -/
def sendToUsers (reg : Registry) (n : BaseNotification)
    (userIds : List String) (emit : Emit) : SendState :=
  let websocketNotification := transformToWebSocketDto n
  userIds.foldl
    (fun st userId =>
      (getClientsByUserId st.reg userId).foldl
        (fun st2 c => attemptSend emit websocketNotification st2 c.socketId) st)
    ⟨reg, [], []⟩

end NotificationService

namespace NotificationGateway

open NotificationService

/-- `emitToSocket(socketId, event, data)` as the emit callback the gateway
closes over: `live socketId = true` models a socket that is found in
`server.sockets` and whose `emit` returns normally; otherwise (socket missing,
or `emit` throwing) the gateway calls
`notificationService.removeClient(socketId)` and throws a
`WebSocketNotificationException`, which the service's per-socket guard
catches. -/
def emitToSocket (live : String → Bool) : Emit :=
  fun socketId _dto reg =>
    if live socketId then (reg, true) else (removeClient reg socketId, false)

/-- `sendToAll(notification)`: delegate to
`notificationService.broadcastNotification` with `emitToSocket` as the send
primitive. -/
def sendToAll (live : String → Bool) (reg : Registry)
    (n : BaseNotification) : SendState :=
  broadcastNotification reg n (emitToSocket live)

/-- Gateway `sendToUsers(notification, userIds)`: delegate to
`notificationService.sendToUsers` with `emitToSocket` as the send
primitive. -/
def sendToUsers (live : String → Bool) (reg : Registry)
    (n : BaseNotification) (userIds : List String) : SendState :=
  NotificationService.sendToUsers reg n userIds (emitToSocket live)

/-- The decoded JWT payload (`jwtService.verify` result); `id` may be absent
or empty at runtime. -/
structure JwtPayload where
  id : Option String
deriving Repr, DecidableEq

/-- The parts of `client.handshake` that `extractToken` reads: the
`authorization` header and `auth.token`; `none` models an absent field. -/
structure Handshake where
  authorization : Option String
  authToken : Option String
deriving Repr, DecidableEq

/-- JavaScript `token.startsWith('Bearer ')`: the token's first seven code
units spell the prefix (modelled over the character list so it is
kernel-computable). -/
def startsWithBearer (t : String) : Bool :=
  t.toList.take ("Bearer ".toList.length) = "Bearer ".toList

/-- `token.replace('Bearer ', '')` under the guard
`token.startsWith('Bearer ')`: `replace` with a string pattern replaces only
the first occurrence, which the guard places at position 0, so the effect is
dropping the seven-character prefix. -/
def stripBearer (t : String) : String :=
  ⟨t.toList.drop ("Bearer ".toList.length)⟩

/-- `extractToken(client)`: the `authorization` header, falling back to
`handshake.auth.token` when the header is falsy; a `Bearer ` prefix is
stripped; a falsy final value yields `null`. -/
def extractToken (h : Handshake) : Option String :=
  let token := if !jsTruthy h.authorization && jsTruthy h.authToken then
    h.authToken else h.authorization
  let token := match token with
    | some t => if t ≠ "" && startsWithBearer t then some (stripBearer t) else some t
    | none => none
  match token with
  | some t => if t = "" then none else some t
  | none => none

/-- Events `handleConnection` emits back to the connecting socket. -/
inductive ClientEvent where
  | errorEvent (code : String)
  | connectedEvent (userId : String) (authenticated : Bool)
deriving Repr, DecidableEq

/-- Outcome of one `handleConnection` call: the registry afterwards, the
events emitted to the client, and whether the socket was forcibly
disconnected. -/
structure ConnOutcome where
  reg : Registry
  events : List ClientEvent
  disconnected : Bool
deriving Repr, DecidableEq

/-- `handleConnection(client)`: extract a bearer token; without one, emit an
`AUTHENTICATION_REQUIRED` error and disconnect.  Otherwise verify the token
(`verify token = none` models `jwtService.verify` throwing); a missing or
falsy `payload.id` throws inside the `try`, landing in the same error path.
Only a verified, truthy id reaches `addClient`. -/
def handleConnection (verify : String → Option JwtPayload) (now : Nat)
    (reg : Registry) (clientId : String) (h : Handshake) : ConnOutcome :=
  match extractToken h with
  | none =>
      ⟨reg, [ClientEvent.errorEvent "AUTHENTICATION_REQUIRED"], true⟩
  | some token =>
      match verify token with
      | none =>
          ⟨reg, [ClientEvent.errorEvent "AUTHENTICATION_REQUIRED"], true⟩
      | some payload =>
          match payload.id with
          | none =>
              ⟨reg, [ClientEvent.errorEvent "AUTHENTICATION_REQUIRED"], true⟩
          | some uid =>
              if uid = "" then
                ⟨reg, [ClientEvent.errorEvent "AUTHENTICATION_REQUIRED"], true⟩
              else
                ⟨addClient reg uid clientId now,
                  [ClientEvent.connectedEvent uid true], false⟩

/-- `handleDisconnect(client)`: remove the client from the registry. -/
def handleDisconnect (reg : Registry) (clientId : String) : Registry :=
  removeClient reg clientId

end NotificationGateway

namespace WebhookController

open NotificationService

/-- `targetType` values of the webhook response's `deliveryInfo`. -/
inductive TargetType where
  | broadcast
  | targeted
deriving Repr, DecidableEq

/-- `deliveryInfo` of the webhook response; `targetUsers` is present exactly
in the targeted branch. -/
structure DeliveryInfo where
  totalClients : Nat
  deliveredTo : Nat
  targetType : TargetType
  targetUsers : Option (List String)
deriving Repr, DecidableEq

/-- The webhook response body; `notificationId` is `null` in the
no-clients-connected early return. -/
structure WebhookResponse where
  message : String
  status : String
  notificationId : Option String
  deliveryInfo : DeliveryInfo
deriving Repr, DecidableEq

/-- `receiveNotification(notification)` body (the non-throwing paths, which
are the only ones reachable in this model: the service never throws and the
gateway's per-socket exceptions are caught inside the service).  Returns the
response together with the final `SendState` (mutated registry, trace of send
attempts, successful socket ids).  `live` is the transport state behind the
gateway's `emitToSocket`; `uuid`/`now` model `uuidv4()`/`new Date()` inside
`processWebhookNotification`. -/
def receiveNotification (live : String → Bool) (reg : Registry)
    (uuid : String) (now : Nat) (w : WebhookNotificationDto) :
    WebhookResponse × SendState :=
  let totalConnectedClients := getConnectedClientsCount reg
  if totalConnectedClients = 0 then
    ({ message := "No clients connected - notification will not be delivered"
       status := "error"
       notificationId := none
       deliveryInfo :=
         { targetType := TargetType.broadcast
           totalClients := 0
           deliveredTo := 0
           targetUsers := none } },
      ⟨reg, [], []⟩)
  else
    let processedNotification := processWebhookNotification uuid now w
    match w.targetUsers with
    | some targetUsers =>
        if targetUsers.length > 0 then
          let connectedTargetUsers :=
            targetUsers.filter (fun userId => isUserConnected reg userId)
          let st := NotificationGateway.sendToUsers live reg
            processedNotification targetUsers
          let deliveredTo := connectedTargetUsers.foldl
            (fun count userId =>
              count + (getClientsByUserId st.reg userId).length) 0
          ({ message := "Notification received and processed successfully"
             status := "success"
             notificationId := some processedNotification.id
             deliveryInfo :=
               { totalClients := totalConnectedClients
                 deliveredTo := deliveredTo
                 targetType := TargetType.targeted
                 targetUsers := some targetUsers } },
            st)
        else
          let st := NotificationGateway.sendToAll live reg processedNotification
          ({ message := "Notification received and processed successfully"
             status := "success"
             notificationId := some processedNotification.id
             deliveryInfo :=
               { totalClients := totalConnectedClients
                 deliveredTo := totalConnectedClients
                 targetType := TargetType.broadcast
                 targetUsers := none } },
            st)
    | none =>
        let st := NotificationGateway.sendToAll live reg processedNotification
        ({ message := "Notification received and processed successfully"
           status := "success"
           notificationId := some processedNotification.id
           deliveryInfo :=
             { totalClients := totalConnectedClients
               deliveredTo := totalConnectedClients
               targetType := TargetType.broadcast
               targetUsers := none } },
          st)

end WebhookController

/-- The `@IsOptional() @IsString() @IsIn(['low','normal','high'])` validation
of `WebhookNotificationDto.priority`: an absent value is skipped, a present
value must be one of the three admitted strings. -/
def dtoPriorityValid : Option String → Bool
  | none => true
  | some s => ["low", "normal", "high"].contains s

/-- A test-double emit callback that never throws and never touches the
registry (the `jest.fn()` mock of the service specs). -/
def emitOk : NotificationService.Emit := fun _ _ reg => (reg, true)

namespace NotificationService

/-- The trace of send-primitive invocations made by a fold of guarded sends is
the starting trace extended by one entry per visited socket id, in visit
order, regardless of the emit callback's behaviour. -/
theorem foldl_attemptSend_calls (emit : Emit) (dto : WebSocketNotificationDto) :
    ∀ (sids : List String) (st : SendState),
      (sids.foldl (attemptSend emit dto) st).calls
        = st.calls ++ sids.map (fun s => (s, dto)) := by
  intro sids
  induction sids with
  | nil => intro st; simp
  | cons s rest ih =>
      intro st
      simp only [List.foldl_cons, List.map_cons, ih, attemptSend]
      simp

/-- When the emit callback succeeds exactly on the socket ids satisfying `f`
(whatever it does to the registry), the successful ids of a fold of guarded
sends are the starting ones extended by the visited ids satisfying `f`, in
visit order. -/
theorem foldl_attemptSend_delivered (emit : Emit) (dto : WebSocketNotificationDto)
    (f : String → Bool) (hf : ∀ s d r, (emit s d r).2 = f s) :
    ∀ (sids : List String) (st : SendState),
      (sids.foldl (attemptSend emit dto) st).delivered
        = st.delivered ++ sids.filter f := by
  intro sids
  induction sids with
  | nil => intro st; simp
  | cons s rest ih =>
      intro st
      simp only [List.foldl_cons, ih, attemptSend, hf]
      by_cases h : f s <;> simp [h, List.filter_cons]

/-- An emit callback that does not mutate the registry leaves the registry of
a fold of guarded sends unchanged. -/
theorem foldl_attemptSend_reg (emit : Emit) (dto : WebSocketNotificationDto)
    (hp : ∀ s d r, (emit s d r).1 = r) :
    ∀ (sids : List String) (st : SendState),
      (sids.foldl (attemptSend emit dto) st).reg = st.reg := by
  intro sids
  induction sids with
  | nil => intro st; simp
  | cons s rest ih =>
      intro st
      simp only [List.foldl_cons, ih, attemptSend, hp]

/-- Closed form of a fold of guarded sends for a registry-preserving emit
callback with success predicate `f`. -/
theorem foldl_attemptSend_spec (emit : Emit) (dto : WebSocketNotificationDto)
    (f : String → Bool) (hp : ∀ s d r, (emit s d r).1 = r)
    (hf : ∀ s d r, (emit s d r).2 = f s)
    (sids : List String) (st : SendState) :
    sids.foldl (attemptSend emit dto) st
      = ⟨st.reg, st.calls ++ sids.map (fun s => (s, dto)),
          st.delivered ++ sids.filter f⟩ := by
  have h1 := foldl_attemptSend_calls emit dto sids st
  have h2 := foldl_attemptSend_delivered emit dto f hf sids st
  have h3 := foldl_attemptSend_reg emit dto hp sids st
  cases hfold : sids.foldl (attemptSend emit dto) st
  simp_all

/-- Closed form of `broadcastNotification` for a registry-preserving emit
callback with success predicate `f`: one call per snapshot entry in
registration order, the successes being the snapshot entries satisfying
`f`. -/
theorem broadcastNotification_spec (reg : Registry) (n : BaseNotification)
    (emit : Emit) (f : String → Bool)
    (hp : ∀ s d r, (emit s d r).1 = r) (hf : ∀ s d r, (emit s d r).2 = f s) :
    broadcastNotification reg n emit
      = ⟨reg,
          (reg.map (fun c => c.socketId)).map
            (fun s => (s, transformToWebSocketDto n)),
          (reg.map (fun c => c.socketId)).filter f⟩ := by
  unfold broadcastNotification
  exact foldl_attemptSend_spec emit (transformToWebSocketDto n) f hp hf _ _

/-- Closed form of `sendToUsers` for a registry-preserving emit callback with
success predicate `f`: per requested user id in input order, one call per
client of that user in registration order, with no deduplication of either
user ids or socket ids. -/
theorem sendToUsers_spec (reg : Registry) (n : BaseNotification)
    (emit : Emit) (f : String → Bool)
    (hp : ∀ s d r, (emit s d r).1 = r) (hf : ∀ s d r, (emit s d r).2 = f s)
    (userIds : List String) :
    sendToUsers reg n userIds emit
      = ⟨reg,
          (userIds.flatMap (fun u => getClientsByUserId reg u)).map
            (fun c => (c.socketId, transformToWebSocketDto n)),
          ((userIds.flatMap (fun u => getClientsByUserId reg u)).map
            (fun c => c.socketId)).filter f⟩ := by
  unfold sendToUsers
  suffices h : ∀ (uids : List String) (cs : List (String × WebSocketNotificationDto))
      (ds : List String),
      uids.foldl
        (fun st userId =>
          (getClientsByUserId st.reg userId).foldl
            (fun st2 c =>
              attemptSend emit (transformToWebSocketDto n) st2 c.socketId) st)
        ⟨reg, cs, ds⟩
        = ⟨reg,
            cs ++ (uids.flatMap (fun u => getClientsByUserId reg u)).map
              (fun c => (c.socketId, transformToWebSocketDto n)),
            ds ++ ((uids.flatMap (fun u => getClientsByUserId reg u)).map
              (fun c => c.socketId)).filter f⟩ by
    simpa using h userIds [] []
  intro uids
  induction uids with
  | nil => intro cs ds; simp
  | cons u rest ih =>
      intro cs ds
      have hmap := List.foldl_map (fun c : ConnectedClient => c.socketId)
        (attemptSend emit (transformToWebSocketDto n))
        (getClientsByUserId reg u) (⟨reg, cs, ds⟩ : SendState)
      have hinner := foldl_attemptSend_spec emit (transformToWebSocketDto n)
        f hp hf ((getClientsByUserId reg u).map (fun c => c.socketId))
        ⟨reg, cs, ds⟩
      rw [hmap] at hinner
      simp only [List.foldl_cons, hinner, ih, List.flatMap_cons, List.map_append,
        List.filter_append, List.append_assoc, List.map_map]
      rfl

end NotificationService

namespace NotificationGateway

open NotificationService

/-- The gateway's send primitive reports success exactly on live sockets. -/
theorem emitToSocket_snd (live : String → Bool) :
    ∀ s d r, ((emitToSocket live) s d r).2 = live s := by
  intro s d r
  unfold emitToSocket
  by_cases h : live s <;> simp [h]

/-- Registry evolution of a fold of guarded sends through the gateway's
`emitToSocket`: a client survives exactly when its socket is live or was
never visited; each failed visit evicts the visited socket id. -/
theorem foldl_attemptSend_reg_emitToSocket (live : String → Bool)
    (dto : WebSocketNotificationDto) :
    ∀ (sids : List String) (st : SendState),
      (sids.foldl (attemptSend (emitToSocket live) dto) st).reg
        = st.reg.filter
            (fun cl => live cl.socketId || !(sids.contains cl.socketId)) := by
  intro sids
  induction sids with
  | nil => intro st; simp
  | cons s rest ih =>
      intro st
      simp only [List.foldl_cons, ih]
      by_cases hl : live s
      · have hreg : (attemptSend (emitToSocket live) dto st s).reg = st.reg := by
          simp [attemptSend, emitToSocket, hl]
        rw [hreg]
        apply List.filter_congr
        intro cl _
        by_cases hx : cl.socketId = s
        · simp [hx, hl, List.contains_cons]
        · simp [List.contains_cons, hx]
      · have hreg : (attemptSend (emitToSocket live) dto st s).reg
            = st.reg.filter (fun cl => cl.socketId ≠ s) := by
          simp [attemptSend, emitToSocket, hl, removeClient]
        rw [hreg, List.filter_filter]
        apply List.filter_congr
        intro cl _
        by_cases hx : cl.socketId = s
        · simp [hx, hl, List.contains_cons]
        · simp [List.contains_cons, hx]

end NotificationGateway

namespace NotificationService

/-- For any emit callback that does not mutate the registry, `sendToUsers`
leaves the registry unchanged and its trace is one call per client of each
requested user id, in input order then registration order, all carrying the
one wire dto. -/
theorem sendToUsers_calls_pure (reg : Registry) (n : BaseNotification)
    (emit : Emit) (hp : ∀ s d r, (emit s d r).1 = r) (userIds : List String) :
    (sendToUsers reg n userIds emit).reg = reg ∧
    (sendToUsers reg n userIds emit).calls
      = (userIds.flatMap (fun u => getClientsByUserId reg u)).map
          (fun c => (c.socketId, transformToWebSocketDto n)) := by
  unfold sendToUsers
  suffices h : ∀ (uids : List String) (cs : List (String × WebSocketNotificationDto))
      (ds : List String),
      (uids.foldl
        (fun st userId =>
          (getClientsByUserId st.reg userId).foldl
            (fun st2 c =>
              attemptSend emit (transformToWebSocketDto n) st2 c.socketId) st)
        ⟨reg, cs, ds⟩).reg = reg ∧
      (uids.foldl
        (fun st userId =>
          (getClientsByUserId st.reg userId).foldl
            (fun st2 c =>
              attemptSend emit (transformToWebSocketDto n) st2 c.socketId) st)
        ⟨reg, cs, ds⟩).calls
        = cs ++ (uids.flatMap (fun u => getClientsByUserId reg u)).map
            (fun c => (c.socketId, transformToWebSocketDto n)) by
    simpa using h userIds [] []
  intro uids
  induction uids with
  | nil => intro cs ds; simp
  | cons u rest ih =>
      intro cs ds
      have hmap := List.foldl_map (fun c : ConnectedClient => c.socketId)
        (attemptSend emit (transformToWebSocketDto n))
        (getClientsByUserId reg u) (⟨reg, cs, ds⟩ : SendState)
      have hcalls := foldl_attemptSend_calls emit (transformToWebSocketDto n)
        ((getClientsByUserId reg u).map (fun c => c.socketId)) ⟨reg, cs, ds⟩
      have hreg := foldl_attemptSend_reg emit (transformToWebSocketDto n) hp
        ((getClientsByUserId reg u).map (fun c => c.socketId)) ⟨reg, cs, ds⟩
      rw [hmap] at hcalls hreg
      simp only [List.foldl_cons]
      rcases hin : (getClientsByUserId reg u).foldl
        (fun st2 c =>
          attemptSend emit (transformToWebSocketDto n) st2 c.socketId)
        (⟨reg, cs, ds⟩ : SendState) with ⟨r1, c1, d1⟩
      rw [hin] at hcalls hreg
      simp only at hcalls hreg
      subst r1
      subst hcalls
      rw [hin]
      rcases ih (cs ++ List.map (fun s => (s, transformToWebSocketDto n))
          (List.map (fun c => c.socketId) (getClientsByUserId reg u))) d1
        with ⟨ihreg, ihcalls⟩
      refine ⟨ihreg, ?_⟩
      rw [ihcalls]
      simp [List.flatMap_cons, List.map_map, Function.comp, List.append_assoc]

/-- Every entry of the `sendToUsers` trace carries the single wire dto
computed once from the notification, whatever the emit callback does. -/
theorem sendToUsers_calls_dto (reg : Registry) (n : BaseNotification)
    (userIds : List String) (emit : Emit) :
    ∀ p ∈ (sendToUsers reg n userIds emit).calls,
      p.2 = transformToWebSocketDto n := by
  unfold sendToUsers
  suffices h : ∀ (uids : List String) (st : SendState),
      (∀ p ∈ st.calls, p.2 = transformToWebSocketDto n) →
      ∀ p ∈ (uids.foldl
        (fun st userId =>
          (getClientsByUserId st.reg userId).foldl
            (fun st2 c =>
              attemptSend emit (transformToWebSocketDto n) st2 c.socketId) st)
        st).calls, p.2 = transformToWebSocketDto n by
    exact h userIds ⟨reg, [], []⟩ (by simp)
  intro uids
  induction uids with
  | nil => intro st hst; simpa using hst
  | cons u rest ih =>
      intro st hst
      rw [List.foldl_cons]
      apply ih
      have hmap := List.foldl_map (fun c : ConnectedClient => c.socketId)
        (attemptSend emit (transformToWebSocketDto n))
        (getClientsByUserId st.reg u) st
      have hcalls := foldl_attemptSend_calls emit (transformToWebSocketDto n)
        ((getClientsByUserId st.reg u).map (fun c => c.socketId)) st
      rw [hmap] at hcalls
      rw [hcalls]
      intro p hp
      rcases List.mem_append.mp hp with h1 | h2
      · exact hst p h1
      · rcases List.mem_map.mp h2 with ⟨s, _, rfl⟩
        rfl

/-- On a duplicate-free list containing `c`, filtering `c` out drops exactly
one element. -/
theorem filter_ne_length {l : List String} {c : String}
    (hnd : l.Nodup) (hc : c ∈ l) :
    (l.filter (fun s => s ≠ c)).length = l.length - 1 := by
  have herase : l.erase c = l.filter (fun s => s ≠ c) := by
    simpa using hnd.erase_eq_filter c
  rw [← herase]
  exact List.length_erase_of_mem hc

end NotificationService

/-- **C1 (counterexample)**: a webhook request whose `targetUsers` is the
empty array is not rejected with an Empty-target error: with one registered
connection it is answered with `status = "success"`, `targetType =
broadcast`, and one send attempt is made — the empty list falls back to
broadcasting. -/
theorem receiveNotification_empty_targetUsers_broadcasts :
    (WebhookController.receiveNotification (fun _ => true)
      [⟨"c1", "alice", 0⟩] "u1" 7
      ⟨"t", "m", some [], none, none⟩).1.status = "success" ∧
    (WebhookController.receiveNotification (fun _ => true)
      [⟨"c1", "alice", 0⟩] "u1" 7
      ⟨"t", "m", some [], none, none⟩).1.deliveryInfo.targetType
      = WebhookController.TargetType.broadcast ∧
    (WebhookController.receiveNotification (fun _ => true)
      [⟨"c1", "alice", 0⟩] "u1" 7
      ⟨"t", "m", some [], none, none⟩).2.calls.length = 1 := by
  refine ⟨rfl, rfl, rfl⟩

/-- **C1 (amended)**: `sendToUsers` applied to an empty identity list makes
zero send attempts and returns an empty successful list with the registry
unchanged — but this is the ordinary return value, not an error result; and
the webhook route treats an empty `targetUsers` array exactly like an absent
one, falling back to a broadcast delivered through the gateway (no
Empty-target rejection exists anywhere on the path). -/
theorem sendToUsers_empty_target_amended :
    (∀ (reg : Registry) (n : BaseNotification) (emit : NotificationService.Emit),
      NotificationService.sendToUsers reg n [] emit
        = ⟨reg, [], []⟩) ∧
    (∀ (live : String → Bool) (reg : Registry) (uuid : String) (now : Nat)
        (w : WebhookNotificationDto),
      w.targetUsers = some [] →
      NotificationService.getConnectedClientsCount reg ≠ 0 →
      (WebhookController.receiveNotification live reg uuid now w).1.status
          = "success" ∧
      (WebhookController.receiveNotification live reg uuid now w).1.deliveryInfo.targetType
          = WebhookController.TargetType.broadcast ∧
      (WebhookController.receiveNotification live reg uuid now w).2
          = NotificationGateway.sendToAll live reg
              (NotificationService.processWebhookNotification uuid now w)) := by
  constructor
  · intro reg n emit
    rfl
  · intro live reg uuid now w hw h0
    simp [WebhookController.receiveNotification, hw, h0]

/-- Witness for the amended C1: a concrete empty-list `sendToUsers` call and
a concrete empty-`targetUsers` webhook request. -/
theorem sendToUsers_empty_target_amended_witness :
    NotificationService.sendToUsers [⟨"c1", "alice", 0⟩]
      ⟨"id1", "info", "hi", none, "normal", 5, "webhook"⟩ [] emitOk
      = ⟨[⟨"c1", "alice", 0⟩], [], []⟩ ∧
    (WebhookController.receiveNotification (fun _ => true)
      [⟨"c1", "alice", 0⟩] "u1" 7
      ⟨"t", "m", some [], none, none⟩).1.deliveryInfo.targetType
      = WebhookController.TargetType.broadcast := by
  constructor
  · exact sendToUsers_empty_target_amended.1 [⟨"c1", "alice", 0⟩]
      ⟨"id1", "info", "hi", none, "normal", 5, "webhook"⟩ emitOk
  · exact (sendToUsers_empty_target_amended.2 (fun _ => true)
      [⟨"c1", "alice", 0⟩] "u1" 7 ⟨"t", "m", some [], none, none⟩
      rfl (by decide)).2.1

/-- **C2 (counterexample)**: broadcast with `k = 2` registered connections of
which the send to `c1` fails (`f = 1`): the response is a success, but its
`deliveryInfo.deliveredTo` is `2 = totalClients`, not `k - f = 1`, and in
particular not strictly less than `totalClients` — even though the gateway
actually delivered only to `c2`. -/
theorem receiveNotification_partial_broadcast_deliveredTo :
    (WebhookController.receiveNotification (fun s => s ≠ "c1")
      [⟨"c1", "alice", 0⟩, ⟨"c2", "bob", 0⟩] "u1" 7
      ⟨"t", "m", none, none, none⟩).1.deliveryInfo.deliveredTo = 2 ∧
    (WebhookController.receiveNotification (fun s => s ≠ "c1")
      [⟨"c1", "alice", 0⟩, ⟨"c2", "bob", 0⟩] "u1" 7
      ⟨"t", "m", none, none, none⟩).1.deliveryInfo.totalClients = 2 ∧
    (WebhookController.receiveNotification (fun s => s ≠ "c1")
      [⟨"c1", "alice", 0⟩, ⟨"c2", "bob", 0⟩] "u1" 7
      ⟨"t", "m", none, none, none⟩).2.delivered = ["c2"] := by
  refine ⟨by decide, by decide, by decide⟩

/-- **C2 (amended)**: a partially-failed broadcast is still reported to the
producer as a success, but the reported `deliveredTo` equals
`totalClients = k` regardless of failures: the controller sets it to the
pre-send connection count and ignores the per-send outcomes, which list only
the `k - f` sockets whose send succeeded. -/
theorem receiveNotification_broadcast_reports_total_amended
    (live : String → Bool) (reg : Registry) (uuid : String) (now : Nat)
    (w : WebhookNotificationDto)
    (hw : w.targetUsers = none)
    (h0 : NotificationService.getConnectedClientsCount reg ≠ 0) :
    (WebhookController.receiveNotification live reg uuid now w).1.status
        = "success" ∧
    (WebhookController.receiveNotification live reg uuid now w).1.deliveryInfo.deliveredTo
        = NotificationService.getConnectedClientsCount reg ∧
    (WebhookController.receiveNotification live reg uuid now w).1.deliveryInfo.totalClients
        = NotificationService.getConnectedClientsCount reg ∧
    (WebhookController.receiveNotification live reg uuid now w).2.delivered
        = (reg.map (fun c => c.socketId)).filter live := by
  have hresp : WebhookController.receiveNotification live reg uuid now w
      = (⟨"Notification received and processed successfully", "success",
          some uuid,
          ⟨NotificationService.getConnectedClientsCount reg,
            NotificationService.getConnectedClientsCount reg,
            WebhookController.TargetType.broadcast, none⟩⟩,
        NotificationGateway.sendToAll live reg
          (NotificationService.processWebhookNotification uuid now w)) := by
    simp [WebhookController.receiveNotification, hw, h0,
      NotificationService.processWebhookNotification]
  have hdel := NotificationService.foldl_attemptSend_delivered
    (NotificationGateway.emitToSocket live)
    (NotificationService.transformToWebSocketDto
      (NotificationService.processWebhookNotification uuid now w))
    live (NotificationGateway.emitToSocket_snd live)
    (reg.map (fun c => c.socketId)) ⟨reg, [], []⟩
  rw [hresp]
  refine ⟨rfl, rfl, rfl, ?_⟩
  simpa [NotificationGateway.sendToAll,
    NotificationService.broadcastNotification] using hdel

/-- Witness for the amended C2: two registered connections, the send to `c1`
failing. -/
theorem receiveNotification_broadcast_reports_total_amended_witness :
    (WebhookController.receiveNotification (fun s => s ≠ "c1")
      [⟨"c1", "alice", 0⟩, ⟨"c2", "bob", 0⟩] "u1" 7
      ⟨"t", "m", none, none, none⟩).1.deliveryInfo.deliveredTo
      = NotificationService.getConnectedClientsCount
          [⟨"c1", "alice", 0⟩, ⟨"c2", "bob", 0⟩] ∧
    (WebhookController.receiveNotification (fun s => s ≠ "c1")
      [⟨"c1", "alice", 0⟩, ⟨"c2", "bob", 0⟩] "u1" 7
      ⟨"t", "m", none, none, none⟩).2.delivered
      = (([⟨"c1", "alice", 0⟩, ⟨"c2", "bob", 0⟩] : Registry).map
          (fun c => c.socketId)).filter (fun s => s ≠ "c1") := by
  have h := receiveNotification_broadcast_reports_total_amended
    (fun s => s ≠ "c1") [⟨"c1", "alice", 0⟩, ⟨"c2", "bob", 0⟩] "u1" 7
    ⟨"t", "m", none, none, none⟩ rfl (by decide)
  exact ⟨h.2.1, h.2.2.2⟩

/-- **C3 (counterexample)**: an injected send primitive that fails for
exactly `c1` and succeeds for the rest, but (like the jest mock of the
service specs) merely throws without touching the registry: after the
broadcast, `c1` is still registered — `broadcastNotification` itself never
evicts a failed connection, so the claim's "afterwards c is absent from the
registry" fails for this primitive. -/
theorem broadcastNotification_no_eviction_pure_emit :
    (NotificationService.broadcastNotification
      [⟨"c1", "alice", 0⟩, ⟨"c2", "bob", 0⟩]
      ⟨"id1", "info", "hi", none, "normal", 5, "webhook"⟩
      (fun s _ r => (r, s ≠ "c1"))).delivered = ["c2"] ∧
    (NotificationService.broadcastNotification
      [⟨"c1", "alice", 0⟩, ⟨"c2", "bob", 0⟩]
      ⟨"id1", "info", "hi", none, "normal", 5, "webhook"⟩
      (fun s _ r => (r, s ≠ "c1"))).reg
      = [⟨"c1", "alice", 0⟩, ⟨"c2", "bob", 0⟩] ∧
    (⟨"c1", "alice", 0⟩ : ConnectedClient)
      ∈ (NotificationService.broadcastNotification
          [⟨"c1", "alice", 0⟩, ⟨"c2", "bob", 0⟩]
          ⟨"id1", "info", "hi", none, "normal", 5, "webhook"⟩
          (fun s _ r => (r, s ≠ "c1"))).reg := by
  refine ⟨by decide, by decide, by decide⟩

/-- **C3 (amended)**: for every send primitive that fails for exactly one
registered connection `c` and succeeds for the rest, the broadcast still
attempts all `k` sends and completes the other `k - 1`
(`deliveredTo = k - 1`); the eviction of `c`, however, is performed not by
`broadcastNotification` but by the gateway's send primitive `emitToSocket`,
which calls `removeClient` before signalling the failure — with that
primitive, `c` is absent from the registry afterwards while the other
`k - 1` connections remain registered, in order. -/
theorem broadcast_failure_isolation_amended
    (reg : Registry) (n : BaseNotification) (c : String)
    (emit : NotificationService.Emit)
    (hnd : (reg.map (fun cl => cl.socketId)).Nodup)
    (hc : c ∈ reg.map (fun cl => cl.socketId))
    (hf : ∀ s d r, (emit s d r).2 = (s ≠ c : Bool)) :
    (NotificationService.broadcastNotification reg n emit).calls.length
        = reg.length ∧
    (NotificationService.broadcastNotification reg n emit).delivered.length
        = reg.length - 1 ∧
    (NotificationService.broadcastNotification reg n
        (NotificationGateway.emitToSocket (fun s => s ≠ c))).reg
        = reg.filter (fun cl => cl.socketId ≠ c) ∧
    (∀ cl ∈ reg, cl.socketId ≠ c →
      cl ∈ (NotificationService.broadcastNotification reg n
        (NotificationGateway.emitToSocket (fun s => s ≠ c))).reg) ∧
    (∀ cl ∈ (NotificationService.broadcastNotification reg n
        (NotificationGateway.emitToSocket (fun s => s ≠ c))).reg,
      cl.socketId ≠ c) ∧
    (NotificationService.broadcastNotification reg n
        (NotificationGateway.emitToSocket (fun s => s ≠ c))).delivered.length
        = reg.length - 1 := by
  have hcalls := NotificationService.foldl_attemptSend_calls emit
    (NotificationService.transformToWebSocketDto n)
    (reg.map (fun cl => cl.socketId)) ⟨reg, [], []⟩
  have hdel := NotificationService.foldl_attemptSend_delivered emit
    (NotificationService.transformToWebSocketDto n)
    (fun s => (s ≠ c : Bool)) hf
    (reg.map (fun cl => cl.socketId)) ⟨reg, [], []⟩
  have hdelg := NotificationService.foldl_attemptSend_delivered
    (NotificationGateway.emitToSocket (fun s => s ≠ c))
    (NotificationService.transformToWebSocketDto n)
    (fun s => (s ≠ c : Bool))
    (NotificationGateway.emitToSocket_snd (fun s => s ≠ c))
    (reg.map (fun cl => cl.socketId)) ⟨reg, [], []⟩
  have hlen : ((reg.map (fun cl => cl.socketId)).filter
      (fun s => (s ≠ c : Bool))).length = reg.length - 1 := by
    have := NotificationService.filter_ne_length hnd hc
    simpa using this
  have hreg : (NotificationService.broadcastNotification reg n
      (NotificationGateway.emitToSocket (fun s => s ≠ c))).reg
      = reg.filter (fun cl => cl.socketId ≠ c) := by
    unfold NotificationService.broadcastNotification
    rw [NotificationGateway.foldl_attemptSend_reg_emitToSocket]
    apply List.filter_congr
    intro cl hcl
    have hmem : cl.socketId ∈ reg.map (fun cl => cl.socketId) :=
      List.mem_map.mpr ⟨cl, hcl, rfl⟩
    have hcont : (reg.map (fun cl => cl.socketId)).contains cl.socketId
        = true := by
      simp [hmem]
    rw [hcont]
    simp
  refine ⟨?_, ?_, hreg, ?_, ?_, ?_⟩
  · unfold NotificationService.broadcastNotification
    rw [hcalls]
    simp
  · unfold NotificationService.broadcastNotification
    rw [hdel]
    simpa using hlen
  · intro cl hcl hne
    rw [hreg]
    exact List.mem_filter.mpr ⟨hcl, by simpa using hne⟩
  · intro cl hcl
    rw [hreg] at hcl
    have := (List.mem_filter.mp hcl).2
    simpa using this
  · unfold NotificationService.broadcastNotification
    rw [hdelg]
    simpa using hlen

/-- Witness for the amended C3: three registered connections with the send
to `c2` failing, both for a registry-preserving primitive and for the
gateway's evicting `emitToSocket`. -/
theorem broadcast_failure_isolation_amended_witness :
    (NotificationService.broadcastNotification
      [⟨"c1", "alice", 0⟩, ⟨"c2", "bob", 0⟩, ⟨"c3", "alice", 0⟩]
      ⟨"id1", "info", "hi", none, "normal", 5, "webhook"⟩
      (fun s _ r => (r, s ≠ "c2"))).delivered.length = 2 ∧
    (NotificationService.broadcastNotification
      [⟨"c1", "alice", 0⟩, ⟨"c2", "bob", 0⟩, ⟨"c3", "alice", 0⟩]
      ⟨"id1", "info", "hi", none, "normal", 5, "webhook"⟩
      (NotificationGateway.emitToSocket (fun s => s ≠ "c2"))).reg
      = ([⟨"c1", "alice", 0⟩, ⟨"c2", "bob", 0⟩, ⟨"c3", "alice", 0⟩] :
          Registry).filter (fun cl => cl.socketId ≠ "c2") := by
  have h := broadcast_failure_isolation_amended
    [⟨"c1", "alice", 0⟩, ⟨"c2", "bob", 0⟩, ⟨"c3", "alice", 0⟩]
    ⟨"id1", "info", "hi", none, "normal", 5, "webhook"⟩ "c2"
    (fun s _ r => (r, s ≠ "c2")) (by decide) (by decide)
    (fun _ _ _ => rfl)
  exact ⟨by simpa using h.2.1, h.2.2.1⟩

/-- **C4 (counterexample)**: `processWebhookNotification` applies the
JavaScript default `payload.priority || 'normal'`, so an invalid but truthy
priority string such as `"urgent"` is copied through unchanged rather than
being replaced by `"normal"` as the claim requires. -/
theorem processWebhookNotification_invalid_priority_passthrough :
    (NotificationService.processWebhookNotification "uuid-1" 0
      ⟨"alert", "msg", none, none, some "urgent"⟩).priority = "urgent"
    ∧ ("urgent" : String) ≠ "normal" := by
  constructor
  · rfl
  · decide

/-- **C4 (amended)**: the notification produced by
`processWebhookNotification` has the payload's priority whenever that value
passes the DTO validation (`low`/`normal`/`high`) and `"normal"` when the
field is absent; more precisely, the fallback to `"normal"` happens exactly
for a falsy value (absent, `null`, or the empty string), while any non-empty
string — valid or not — is copied through unchanged (invalid values are
rejected by the DTO validation layer before this stage on the webhook
route). -/
theorem processWebhookNotification_priority_amended
    (uuid : String) (now : Nat) (w : WebhookNotificationDto) :
    (dtoPriorityValid w.priority = true →
      (NotificationService.processWebhookNotification uuid now w).priority
        = match w.priority with
          | some p => p
          | none => "normal") ∧
    ((w.priority = none ∨ w.priority = some "") →
      (NotificationService.processWebhookNotification uuid now w).priority
        = "normal") ∧
    (∀ p, w.priority = some p → p ≠ "" →
      (NotificationService.processWebhookNotification uuid now w).priority
        = p) := by
  refine ⟨?_, ?_, ?_⟩
  · intro hv
    cases hpr : w.priority with
    | none =>
        simp [NotificationService.processWebhookNotification, jsOrDefault, hpr]
    | some p =>
        have hne : p ≠ "" := by
          rw [hpr] at hv
          simp [dtoPriorityValid] at hv
          rcases hv with h | h | h <;> subst h <;> decide
        simp [NotificationService.processWebhookNotification, jsOrDefault, hpr,
          hne]
  · intro h
    rcases h with h | h <;>
      simp [NotificationService.processWebhookNotification, jsOrDefault, h]
  · intro p hp hne
    simp [NotificationService.processWebhookNotification, jsOrDefault, hp, hne]

/-- Witness for the amended C4 at two concrete payloads: a valid present
priority is copied, an absent one defaults to `"normal"`. -/
theorem processWebhookNotification_priority_amended_witness :
    (NotificationService.processWebhookNotification "u" 0
      ⟨"t", "m", none, none, some "high"⟩).priority = "high" ∧
    (NotificationService.processWebhookNotification "u" 0
      ⟨"t", "m", none, none, none⟩).priority = "normal" := by
  constructor
  · exact (processWebhookNotification_priority_amended "u" 0
      ⟨"t", "m", none, none, some "high"⟩).2.2 "high" rfl (by decide)
  · exact (processWebhookNotification_priority_amended "u" 0
      ⟨"t", "m", none, none, none⟩).2.1 (Or.inl rfl)

/-- **C5**: with zero registered connections, `receiveNotification` returns
synchronously (the model is a total function into a response value, never an
exception) with the distinguished no-clients-connected message, a
`deliveryInfo` of `totalClients = 0` and `deliveredTo = 0`, no send attempt
on any connection, and the registry untouched. -/
theorem receiveNotification_zero_connections
    (live : String → Bool) (reg : Registry) (uuid : String) (now : Nat)
    (w : WebhookNotificationDto)
    (h : NotificationService.getConnectedClientsCount reg = 0) :
    (WebhookController.receiveNotification live reg uuid now w).1.message
        = "No clients connected - notification will not be delivered" ∧
    (WebhookController.receiveNotification live reg uuid now w).1.deliveryInfo.totalClients = 0 ∧
    (WebhookController.receiveNotification live reg uuid now w).1.deliveryInfo.deliveredTo = 0 ∧
    (WebhookController.receiveNotification live reg uuid now w).1.deliveryInfo.targetType
        = WebhookController.TargetType.broadcast ∧
    (WebhookController.receiveNotification live reg uuid now w).2.calls = [] ∧
    (WebhookController.receiveNotification live reg uuid now w).2.reg = reg := by
  simp [WebhookController.receiveNotification, h]

/-- Witness for C5 at the empty registry. -/
theorem receiveNotification_zero_connections_witness :
    (WebhookController.receiveNotification (fun _ => true) [] "u1" 3
      ⟨"info", "hi", none, none, none⟩).1.deliveryInfo.deliveredTo = 0 ∧
    (WebhookController.receiveNotification (fun _ => true) [] "u1" 3
      ⟨"info", "hi", none, none, none⟩).2.calls = [] := by
  have h := receiveNotification_zero_connections (fun _ => true) [] "u1" 3
    ⟨"info", "hi", none, none, none⟩ (by decide)
  exact ⟨h.2.2.1, h.2.2.2.2.1⟩

/-- **C6**: when every send succeeds, `broadcastNotification` invokes the
send primitive exactly once per registered connection — the trace is
precisely the call-time snapshot in registration order, each call carrying
the wire dto — and returns all socket ids, so the number delivered equals
the registry count. -/
theorem broadcastNotification_complete_no_failures
    (reg : Registry) (n : BaseNotification) (emit : NotificationService.Emit)
    (hsucc : ∀ s d r, (emit s d r).2 = true) :
    (NotificationService.broadcastNotification reg n emit).calls
        = (reg.map (fun c => c.socketId)).map
            (fun s => (s, NotificationService.transformToWebSocketDto n)) ∧
    (NotificationService.broadcastNotification reg n emit).delivered
        = reg.map (fun c => c.socketId) ∧
    (NotificationService.broadcastNotification reg n emit).delivered.length
        = NotificationService.getConnectedClientsCount reg := by
  have h1 := NotificationService.foldl_attemptSend_calls emit
    (NotificationService.transformToWebSocketDto n)
    (reg.map (fun c => c.socketId)) ⟨reg, [], []⟩
  have h2 := NotificationService.foldl_attemptSend_delivered emit
    (NotificationService.transformToWebSocketDto n)
    (fun _ => true) (fun s d r => hsucc s d r)
    (reg.map (fun c => c.socketId)) ⟨reg, [], []⟩
  unfold NotificationService.broadcastNotification
  refine ⟨by simpa using h1, ?_, ?_⟩
  · simpa using h2
  · have : (NotificationService.broadcastNotification reg n emit).delivered
        = reg.map (fun c => c.socketId) := by
      unfold NotificationService.broadcastNotification
      simpa using h2
    rw [NotificationService.broadcastNotification] at this
    rw [this]
    simp [NotificationService.getConnectedClientsCount]

/-- Witness for C6: a three-connection registry with an always-succeeding
emit callback delivers to all three sockets in registration order. -/
theorem broadcastNotification_complete_no_failures_witness :
    (NotificationService.broadcastNotification
      [⟨"c1", "alice", 0⟩, ⟨"c2", "bob", 0⟩, ⟨"c3", "alice", 0⟩]
      ⟨"id1", "info", "hi", none, "normal", 5, "webhook"⟩
      emitOk).delivered = ["c1", "c2", "c3"] ∧
    (NotificationService.broadcastNotification
      [⟨"c1", "alice", 0⟩, ⟨"c2", "bob", 0⟩, ⟨"c3", "alice", 0⟩]
      ⟨"id1", "info", "hi", none, "normal", 5, "webhook"⟩
      emitOk).delivered.length
      = NotificationService.getConnectedClientsCount
          [⟨"c1", "alice", 0⟩, ⟨"c2", "bob", 0⟩, ⟨"c3", "alice", 0⟩] := by
  have h := broadcastNotification_complete_no_failures
    [⟨"c1", "alice", 0⟩, ⟨"c2", "bob", 0⟩, ⟨"c3", "alice", 0⟩]
    ⟨"id1", "info", "hi", none, "normal", 5, "webhook"⟩
    emitOk (fun _ _ _ => rfl)
  exact ⟨h.2.1, h.2.2⟩


/-- **C7**: for any registry and identities `a`, `b`, and any send primitive
that does not itself mutate the registry, `sendToUsers` invokes the primitive
exactly once per connection currently registered under `a` or `b` (in input
order of the identities, then registration order) and never on a connection
of any other identity; on the concrete registry
`{c1 → alice, c2 → bob, c3 → alice}` a `sendToUsers` for `alice` delivers to
exactly `c1` and `c3`, two sends. -/
theorem sendToUsers_targeted_addressing
    (reg : Registry) (n : BaseNotification) (a b : String)
    (emit : NotificationService.Emit)
    (hp : ∀ s d r, (emit s d r).1 = r) :
    (NotificationService.sendToUsers reg n [a, b] emit).calls
        = (NotificationService.getClientsByUserId reg a
            ++ NotificationService.getClientsByUserId reg b).map
            (fun c => (c.socketId, NotificationService.transformToWebSocketDto n)) ∧
    (∀ p ∈ (NotificationService.sendToUsers reg n [a, b] emit).calls,
      ∃ cl, cl ∈ reg ∧ cl.socketId = p.1 ∧ (cl.userId = a ∨ cl.userId = b)) ∧
    (NotificationService.sendToUsers
        [⟨"c1", "alice", 0⟩, ⟨"c2", "bob", 0⟩, ⟨"c3", "alice", 0⟩]
        n ["alice"] emitOk).delivered = ["c1", "c3"] ∧
    (NotificationService.sendToUsers
        [⟨"c1", "alice", 0⟩, ⟨"c2", "bob", 0⟩, ⟨"c3", "alice", 0⟩]
        n ["alice"] emitOk).delivered.length = 2 := by
  have hcalls := (NotificationService.sendToUsers_calls_pure reg n emit hp
    [a, b]).2
  have hcalls' : (NotificationService.sendToUsers reg n [a, b] emit).calls
      = (NotificationService.getClientsByUserId reg a
          ++ NotificationService.getClientsByUserId reg b).map
          (fun c => (c.socketId, NotificationService.transformToWebSocketDto n)) := by
    rw [hcalls]
    simp [List.flatMap_cons]
  have hconcrete := NotificationService.sendToUsers_spec
    [⟨"c1", "alice", 0⟩, ⟨"c2", "bob", 0⟩, ⟨"c3", "alice", 0⟩]
    n emitOk (fun _ => true) (fun _ _ _ => rfl) (fun _ _ _ => rfl) ["alice"]
  refine ⟨hcalls', ?_, ?_, ?_⟩
  · intro p hp'
    rw [hcalls'] at hp'
    rcases List.mem_map.mp hp' with ⟨cl, hcl, rfl⟩
    rcases List.mem_append.mp hcl with h | h
    · have hm := List.mem_filter.mp h
      exact ⟨cl, hm.1, rfl, Or.inl (by simpa using hm.2)⟩
    · have hm := List.mem_filter.mp h
      exact ⟨cl, hm.1, rfl, Or.inr (by simpa using hm.2)⟩
  · rw [hconcrete]
    rfl
  · rw [hconcrete]
    rfl

/-- Witness for C7: a registry-preserving emit callback on the concrete
three-connection registry, identities `alice` and `carol` (the latter
offline). -/
theorem sendToUsers_targeted_addressing_witness :
    (NotificationService.sendToUsers
      [⟨"c1", "alice", 0⟩, ⟨"c2", "bob", 0⟩, ⟨"c3", "alice", 0⟩]
      ⟨"id1", "info", "hi", none, "normal", 5, "webhook"⟩
      ["alice", "carol"] emitOk).calls
      = (NotificationService.getClientsByUserId
            [⟨"c1", "alice", 0⟩, ⟨"c2", "bob", 0⟩, ⟨"c3", "alice", 0⟩] "alice"
          ++ NotificationService.getClientsByUserId
            [⟨"c1", "alice", 0⟩, ⟨"c2", "bob", 0⟩, ⟨"c3", "alice", 0⟩] "carol").map
          (fun c => (c.socketId, NotificationService.transformToWebSocketDto
            ⟨"id1", "info", "hi", none, "normal", 5, "webhook"⟩)) ∧
    (NotificationService.sendToUsers
      [⟨"c1", "alice", 0⟩, ⟨"c2", "bob", 0⟩, ⟨"c3", "alice", 0⟩]
      ⟨"id1", "info", "hi", none, "normal", 5, "webhook"⟩
      ["alice"] emitOk).delivered = ["c1", "c3"] := by
  have h := sendToUsers_targeted_addressing
    [⟨"c1", "alice", 0⟩, ⟨"c2", "bob", 0⟩, ⟨"c3", "alice", 0⟩]
    ⟨"id1", "info", "hi", none, "normal", 5, "webhook"⟩
    "alice" "carol" emitOk (fun _ _ _ => rfl)
  exact ⟨h.1, h.2.2.1⟩

/-- **C8**: every payload handed to the send primitive for an
ingress-originated notification — whether broadcast or targeted, and
whatever the primitive does — is the one wire dto of the normalized
notification, whose fields (exactly those of `WebSocketNotificationDto`:
`id, type, message, data, priority, timestamp, source`) carry the fresh id,
the producer's `type`/`message`, the producer's `data` passed through
unmodified (absence included), the normalized priority, the ISO-8601
rendering of the creation instant, and the fixed source tag `"webhook"`. -/
theorem wire_format_ingress
    (reg : Registry) (emit : NotificationService.Emit) (uuid : String)
    (now : Nat) (w : WebhookNotificationDto) (userIds : List String) :
    (∀ p ∈ (NotificationService.broadcastNotification reg
        (NotificationService.processWebhookNotification uuid now w)
        emit).calls,
      p.2 = NotificationService.transformToWebSocketDto
        (NotificationService.processWebhookNotification uuid now w)) ∧
    (∀ p ∈ (NotificationService.sendToUsers reg
        (NotificationService.processWebhookNotification uuid now w)
        userIds emit).calls,
      p.2 = NotificationService.transformToWebSocketDto
        (NotificationService.processWebhookNotification uuid now w)) ∧
    NotificationService.transformToWebSocketDto
        (NotificationService.processWebhookNotification uuid now w)
      = ⟨uuid, w.type, w.message, w.data, jsOrDefault w.priority "normal",
          toISOString now, "webhook"⟩ := by
  refine ⟨?_, ?_, rfl⟩
  · intro p hp
    have hcalls := NotificationService.foldl_attemptSend_calls emit
      (NotificationService.transformToWebSocketDto
        (NotificationService.processWebhookNotification uuid now w))
      (reg.map (fun c => c.socketId)) ⟨reg, [], []⟩
    unfold NotificationService.broadcastNotification at hp
    rw [hcalls] at hp
    simp only [List.nil_append] at hp
    rcases List.mem_map.mp hp with ⟨s, _, rfl⟩
    rfl
  · exact NotificationService.sendToUsers_calls_dto reg
      (NotificationService.processWebhookNotification uuid now w) userIds emit

/-- Witness for C8: a concrete broadcast call whose single trace entry
carries exactly the wire dto, including an absent `data` staying absent. -/
theorem wire_format_ingress_witness :
    ("c1", NotificationService.transformToWebSocketDto
        (NotificationService.processWebhookNotification "u1" 7
          ⟨"info", "hi", none, none, none⟩))
      ∈ (NotificationService.broadcastNotification [⟨"c1", "alice", 0⟩]
          (NotificationService.processWebhookNotification "u1" 7
            ⟨"info", "hi", none, none, none⟩) emitOk).calls ∧
    NotificationService.transformToWebSocketDto
        (NotificationService.processWebhookNotification "u1" 7
          ⟨"info", "hi", none, none, none⟩)
      = ⟨"u1", "info", "hi", none, "normal", toISOString 7, "webhook"⟩ := by
  have hmem : ("c1", NotificationService.transformToWebSocketDto
      (NotificationService.processWebhookNotification "u1" 7
        ⟨"info", "hi", none, none, none⟩))
      ∈ (NotificationService.broadcastNotification [⟨"c1", "alice", 0⟩]
          (NotificationService.processWebhookNotification "u1" 7
            ⟨"info", "hi", none, none, none⟩) emitOk).calls := by
    decide
  refine ⟨hmem, ?_⟩
  have h := wire_format_ingress [⟨"c1", "alice", 0⟩] emitOk "u1" 7
    ⟨"info", "hi", none, none, none⟩ []
  exact h.2.2

/-- **C9**: `sendToUsers` does not deduplicate the identity list — an
identity listed twice, with `m` live connections, gets `2 * m` send
attempts, and each of its connection ids appears twice in the returned
successful list (once per occurrence of the identity). -/
theorem sendToUsers_duplicate_identity
    (reg : Registry) (n : BaseNotification) (u : String)
    (emit : NotificationService.Emit)
    (hp : ∀ s d r, (emit s d r).1 = r)
    (hs : ∀ s d r, (emit s d r).2 = true) :
    (NotificationService.sendToUsers reg n [u, u] emit).delivered
        = (NotificationService.getClientsByUserId reg u).map
            (fun c => c.socketId)
          ++ (NotificationService.getClientsByUserId reg u).map
            (fun c => c.socketId) ∧
    (NotificationService.sendToUsers reg n [u, u] emit).calls.length
        = 2 * (NotificationService.getClientsByUserId reg u).length := by
  have hspec := NotificationService.sendToUsers_spec reg n emit
    (fun _ => true) hp (fun s d r => hs s d r) [u, u]
  rw [hspec]
  constructor
  · simp [List.flatMap_cons]
  · simp [List.flatMap_cons, Nat.two_mul]

/-- Witness for C9: `alice` (connections `c1`, `c3`) listed twice delivers
`["c1", "c3", "c1", "c3"]` — four sends for two connections. -/
theorem sendToUsers_duplicate_identity_witness :
    (NotificationService.sendToUsers
      [⟨"c1", "alice", 0⟩, ⟨"c2", "bob", 0⟩, ⟨"c3", "alice", 0⟩]
      ⟨"id1", "info", "hi", none, "normal", 5, "webhook"⟩
      ["alice", "alice"] emitOk).delivered
      = (NotificationService.getClientsByUserId
          [⟨"c1", "alice", 0⟩, ⟨"c2", "bob", 0⟩, ⟨"c3", "alice", 0⟩]
          "alice").map (fun c => c.socketId)
        ++ (NotificationService.getClientsByUserId
          [⟨"c1", "alice", 0⟩, ⟨"c2", "bob", 0⟩, ⟨"c3", "alice", 0⟩]
          "alice").map (fun c => c.socketId) ∧
    (NotificationService.sendToUsers
      [⟨"c1", "alice", 0⟩, ⟨"c2", "bob", 0⟩, ⟨"c3", "alice", 0⟩]
      ⟨"id1", "info", "hi", none, "normal", 5, "webhook"⟩
      ["alice", "alice"] emitOk).calls.length = 2 * 2 := by
  have h := sendToUsers_duplicate_identity
    [⟨"c1", "alice", 0⟩, ⟨"c2", "bob", 0⟩, ⟨"c3", "alice", 0⟩]
    ⟨"id1", "info", "hi", none, "normal", 5, "webhook"⟩
    "alice" emitOk (fun _ _ _ => rfl) (fun _ _ _ => rfl)
  exact ⟨h.1, by rw [h.2]; rfl⟩

/-- **C10**: `handleConnection` registers a connection only under a verified
identity: without an extractable bearer token, when `jwtService.verify`
throws, or when the verified payload lacks a (truthy) `id`, the gateway
emits an `AUTHENTICATION_REQUIRED` error, forcibly disconnects the socket,
and leaves the registry unchanged; `addClient` is reached only with the
verified payload's non-empty id, so no anonymous or sentinel identity is
ever registered by this path. -/
theorem handleConnection_authenticated_only
    (verify : String → Option NotificationGateway.JwtPayload) (now : Nat)
    (reg : Registry) (clientId : String) (h : NotificationGateway.Handshake) :
    (NotificationGateway.extractToken h = none →
      NotificationGateway.handleConnection verify now reg clientId h
        = ⟨reg,
            [NotificationGateway.ClientEvent.errorEvent
              "AUTHENTICATION_REQUIRED"], true⟩) ∧
    (∀ t, NotificationGateway.extractToken h = some t → verify t = none →
      NotificationGateway.handleConnection verify now reg clientId h
        = ⟨reg,
            [NotificationGateway.ClientEvent.errorEvent
              "AUTHENTICATION_REQUIRED"], true⟩) ∧
    (∀ t p, NotificationGateway.extractToken h = some t → verify t = some p →
      (p.id = none ∨ p.id = some "") →
      NotificationGateway.handleConnection verify now reg clientId h
        = ⟨reg,
            [NotificationGateway.ClientEvent.errorEvent
              "AUTHENTICATION_REQUIRED"], true⟩) ∧
    (∀ t uid, NotificationGateway.extractToken h = some t →
      verify t = some ⟨some uid⟩ → uid ≠ "" →
      NotificationGateway.handleConnection verify now reg clientId h
        = ⟨NotificationService.addClient reg uid clientId now,
            [NotificationGateway.ClientEvent.connectedEvent uid true],
            false⟩) := by
  refine ⟨?_, ?_, ?_, ?_⟩
  · intro ht
    simp [NotificationGateway.handleConnection, ht]
  · intro t ht hv
    simp [NotificationGateway.handleConnection, ht, hv]
  · intro t p ht hv hid
    rcases hid with hid | hid <;>
      simp [NotificationGateway.handleConnection, ht, hv, hid]
  · intro t uid ht hv hne
    simp [NotificationGateway.handleConnection, ht, hv, hne]

/-- Witness for C10: a concrete verifier accepting exactly the token `good`
as `alice`; a handshake with the `Bearer good` authorization header
registers `alice`, a handshake with no credentials is rejected with the
registry untouched. -/
theorem handleConnection_authenticated_only_witness :
    NotificationGateway.handleConnection
        (fun t => if t = "good"
          then some (⟨some "alice"⟩ : NotificationGateway.JwtPayload)
          else none)
        0 [] "s1" ⟨some "Bearer good", none⟩
      = ⟨NotificationService.addClient [] "alice" "s1" 0,
          [NotificationGateway.ClientEvent.connectedEvent "alice" true],
          false⟩ ∧
    NotificationGateway.handleConnection
        (fun t => if t = "good"
          then some (⟨some "alice"⟩ : NotificationGateway.JwtPayload)
          else none)
        0 [] "s1" ⟨none, none⟩
      = ⟨[],
          [NotificationGateway.ClientEvent.errorEvent
            "AUTHENTICATION_REQUIRED"], true⟩ := by
  constructor
  · exact (handleConnection_authenticated_only
      (fun t => if t = "good"
        then some (⟨some "alice"⟩ : NotificationGateway.JwtPayload)
        else none) 0 [] "s1" ⟨some "Bearer good", none⟩).2.2.2
      "good" "alice" (by decide) (by decide) (by decide)
  · exact (handleConnection_authenticated_only
      (fun t => if t = "good"
        then some (⟨some "alice"⟩ : NotificationGateway.JwtPayload)
        else none) 0 [] "s1" ⟨none, none⟩).1 (by decide)
